import Mathlib

/-!
Verification of the Dining Match backend (`server.js`): the availability /
filtering engine and the reservation endpoint, embedded shallowly in Lean.

JavaScript values that the code branches on by truthiness are modelled
explicitly: optional string fields are `Option String` (with `""` falsy),
optional numeric fields are `Option Int` / `Option ℚ` (with `0` falsy),
and JSON body fields that may be either numbers or strings are `JSVal`.
-/

namespace DiningMatch

/-- A JSON scalar as it arrives in a request body: a number or a string.
JS numbers are modelled as rationals (`ℚ`); the inputs in scope are exact. -/
inductive JSVal where
  | num (q : ℚ)
  | str (s : String)
deriving DecidableEq, Repr

/-- JS truthiness of a possibly-absent value (`undefined`, `0` and `""` are
falsy). -/
def truthyV : Option JSVal → Bool
  | none => false
  | some (.num q) => q != 0
  | some (.str s) => s != ""

/-- JS truthiness of a possibly-absent string (`undefined` and `""` falsy). -/
def truthyS : Option String → Bool
  | none => false
  | some s => s != ""

/-- `a || b` on optional strings, as JS evaluates it: `a` when truthy, else
`b`. -/
def jsOrS (a b : Option String) : Option String :=
  if truthyS a then a else b

/-- Digit characters to a natural number (the digits are already checked). -/
def digitsToNat (cs : List Char) : Nat :=
  cs.foldl (fun acc c => acc * 10 + (c.toNat - 48)) 0

/-- Model of the JS builtin `parseInt(s)` (radix 10): optional sign followed
by a longest digit prefix; `none` models `NaN`.  Whitespace and radix
prefixes are not modelled (no input in scope uses them). -/
def parseIntStr (s : String) : Option Int :=
  let (neg, cs) : Bool × List Char :=
    match s.data with
    | '-' :: t => (true, t)
    | '+' :: t => (false, t)
    | cs => (false, cs)
  let ds := cs.takeWhile Char.isDigit
  if ds.isEmpty then none
  else
    let n : Int := (digitsToNat ds : Int)
    some (if neg then -n else n)

/-- Truncation toward zero, as JS number→integer coercion rounds. -/
def ratTrunc (q : ℚ) : Int :=
  if 0 ≤ q then ⌊q⌋ else ⌈q⌉

/-- `parseInt` applied to a JSON body value: a number is truncated toward
zero (exact for the integral magnitudes in scope), a string is parsed,
an absent value gives `NaN` (`none`). -/
def parseIntVal : Option JSVal → Option Int
  | none => none
  | some (.num q) => some (ratTrunc q)
  | some (.str s) => parseIntStr s

/-- Model of the JS builtin `parseFloat(s)`: optional sign, then a longest
`digits[.digits]` prefix; `none` models `NaN`.  Exponent notation and
leading whitespace are not modelled (no input in scope uses them). -/
def parseFloatStr (s : String) : Option ℚ :=
  let (neg, cs) : Bool × List Char :=
    match s.data with
    | '-' :: t => (true, t)
    | '+' :: t => (false, t)
    | cs => (false, cs)
  let intPart := cs.takeWhile Char.isDigit
  let rest := cs.dropWhile Char.isDigit
  let value? : Option ℚ :=
    match rest with
    | '.' :: t =>
      let fracPart := t.takeWhile Char.isDigit
      if intPart.isEmpty && fracPart.isEmpty then none
      else some (mkRat
        (digitsToNat intPart * 10 ^ fracPart.length + digitsToNat fracPart)
        (10 ^ fracPart.length))
    | _ => if intPart.isEmpty then none else some (digitsToNat intPart : ℚ)
  value?.map (fun v => if neg then -v else v)

/-- Lexicographic `<` on character lists, by code point. -/
def charListLt : List Char → List Char → Bool
  | [], [] => false
  | [], _ :: _ => true
  | _ :: _, [] => false
  | a :: as, b :: bs =>
    if a < b then true else if b < a then false else charListLt as bs

/-- The JS `<` operator on strings: lexicographic comparison by code unit.
On the ASCII `"HH:MM"` strings in scope this coincides with code-point
order. -/
def jsStrLt (a b : String) : Bool :=
  charListLt a.data b.data

/-! ## Calendar (model of the `Date` builtin on `"YYYY-MM-DD"` strings) -/

/-- Leap year in the proleptic Gregorian calendar used by ECMAScript. -/
def isLeapYear (y : Int) : Bool :=
  (y % 4 == 0 && y % 100 != 0) || y % 400 == 0

/-- Days in a month (1–12). -/
def daysInMonth (y : Int) (m : Nat) : Nat :=
  if m == 2 then (if isLeapYear y then 29 else 28)
  else if m == 4 || m == 6 || m == 9 || m == 11 then 30
  else 31

/-- Parse a string of shape `YYYY-MM-DD` (the `^\d{4}-\d{2}-\d{2}$` regex)
into year, month, day numerals. -/
def parseYMD (s : String) : Option (Int × Nat × Nat) :=
  match s.data with
  | [y1, y2, y3, y4, '-', m1, m2, '-', d1, d2] =>
    if [y1, y2, y3, y4, m1, m2, d1, d2].all Char.isDigit then
      some ((digitsToNat [y1, y2, y3, y4] : Int),
            digitsToNat [m1, m2], digitsToNat [d1, d2])
    else none
  | _ => none

/-- Whether `y-m-d` is a real calendar date — exactly when the `Date`
builtin accepts `"YYYY-MM-DDT00:00:00Z"` (ISO parsing). -/
def validYMD (y : Int) (m d : Nat) : Bool :=
  1 ≤ m && m ≤ 12 && 1 ≤ d && d ≤ daysInMonth y m

/-- Days since the Unix epoch of a civil date (standard `days_from_civil`
algorithm); models `Date.getTime() / 86400000` for valid dates. -/
def daysFromCivil (y : Int) (m d : Nat) : Int :=
  let yAdj : Int := if m ≤ 2 then y - 1 else y
  let era : Int := Int.ediv yAdj 400
  let yoe : Int := yAdj - era * 400
  let mp : Int := if m > 2 then (m : Int) - 3 else (m : Int) + 9
  let doy : Int := Int.ediv (153 * mp + 2) 5 + (d : Int) - 1
  let doe : Int := yoe * 365 + Int.ediv yoe 4 - Int.ediv yoe 100 + doy
  era * 146097 + doe - 719468

/-- The weekday-name table of `getDayOfWeek`, indexed by `getUTCDay()`. -/
def daysOfWeek : List String :=
  ["Sunday", "Monday", "Tuesday", "Wednesday", "Thursday", "Friday",
   "Saturday"]

/-- `getDayOfWeek(date)`: weekday name of a `YYYY-MM-DD` string via the UTC
calendar; `none` models the `undefined` index of an invalid `Date`. -/
def getDayOfWeek (date : String) : Option String :=
  match parseYMD date with
  | none => none
  | some (y, m, d) =>
    if validYMD y m d then
      some (daysOfWeek.getD ((daysFromCivil y m d + 4).emod 7).toNat "")
    else none

deriving instance DecidableEq for Except

/-! ## Data model -/

/-- A stored restaurant `id`: the seed data uses numbers, but the lookup
code tolerates string ids via `typeof r.id === 'string' ? parseInt(r.id) : r.id`. -/
inductive JSId where
  | num (n : Int)
  | str (s : String)
deriving DecidableEq, Repr

/-- A restaurant address: free text, or the structured street/number/city
frontend form. -/
inductive Address where
  | plain (s : String)
  | structured (street number city : String)
deriving DecidableEq, Repr

/-- One weekday's opening-hours entry: either `closed: true`, or an
`open`/`close` pair of `"HH:MM"` strings. -/
inductive DayHours where
  | closedDay
  | openHours (openTime closeTime : String)
deriving DecidableEq, Repr

/-- A restaurant record as stored in `restaurantsData`.  Optional fields are
`none` when absent or `null`. -/
structure Restaurant where
  id : JSId
  name : String := ""
  cuisine : String := ""
  address : Address := .plain ""
  rating : Option ℚ := none
  price_range : Option String := none
  priceRange : Option String := none
  maxGuests : Option Int := none
  currGuests : Option Int := none
  openingHours : Option (List (String × DayHours)) := none
deriving DecidableEq, Repr

/-! ## Schedule matcher and predicates -/

/-- `isRestaurantOpen(restaurant, date, time)` from `server.js`. -/
def isRestaurantOpen (r : Restaurant) (date time : String) : Bool :=
  match r.openingHours with
  | none => false
  | some oh =>
    let hoursToday : Option DayHours :=
      match getDayOfWeek date with
      | none => none
      | some dayName => oh.lookup dayName
    match hoursToday with
    | none => false
    | some .closedDay => false
    | some (.openHours openTime closeTime) =>
      if jsStrLt closeTime openTime then
        !jsStrLt time openTime || jsStrLt time closeTime
      else
        !jsStrLt time openTime && jsStrLt time closeTime

/-- `isOnBudget(restaurant, budget)`:
`(restaurant.price_range || restaurant.priceRange) === budget`. -/
def isOnBudget (r : Restaurant) (budget : String) : Bool :=
  match jsOrS r.price_range r.priceRange with
  | some t => t == budget
  | none => false

/-- The three failure messages of `validateDate`. -/
inductive DateError where
  | badFormat
  | invalidDate
  | pastDate
deriving DecidableEq, Repr

/-- `validateDate(dateString)` from `server.js`; `today` is the current UTC
date as days since the epoch (`new Date()` floored by `setUTCHours(0,0,0,0)`).
`none` means valid. -/
def validateDate (today : Int) (s : String) : Option DateError :=
  match parseYMD s with
  | none => some .badFormat
  | some (y, m, d) =>
    if !validYMD y m d then some .invalidDate
    else if daysFromCivil y m d < today then some .pastDate
    else none

/-- `restaurant.maxGuests || 50`: the effective capacity (`0` is falsy in
JS, so a stored `0` also falls back to `50`). -/
def effMaxGuests (r : Restaurant) : Int :=
  match r.maxGuests with
  | some v => if v == 0 then 50 else v
  | none => 50

/-- `restaurant.currGuests || 0`: the effective current guest count. -/
def effCurrGuests (r : Restaurant) : Int :=
  r.currGuests.getD 0

/-- The rendered address string used by the location filter. -/
def renderAddress : Address → String
  | .plain s => s
  | .structured street number city => street ++ " " ++ number ++ ", " ++ city

/-- Whether `needle` occurs as a contiguous run inside `hay` (the JS
`String.prototype.includes`). -/
def isInfixList (needle : List Char) : List Char → Bool
  | [] => needle.isEmpty
  | hay@(_ :: t) => needle.isPrefixOf hay || isInfixList needle t

/-- ASCII lowercasing of one character (the `toLowerCase` builtin restricted
to the ASCII data in scope). -/
def charToLower (c : Char) : Char :=
  if 'A' ≤ c && c ≤ 'Z' then Char.ofNat (c.toNat + 32) else c

/-- Case-insensitive substring containment, `hay.toLowerCase().includes(q.toLowerCase())`. -/
def includesCI (hay needle : String) : Bool :=
  isInfixList (needle.data.map charToLower) (hay.data.map charToLower)

/-- The cuisine filter body of `GET /api/restaurants`. -/
def cuisineFilter (q : String) (r : Restaurant) : Bool :=
  includesCI r.cuisine q

/-- The location filter body of `GET /api/restaurants`. -/
def locationFilter (q : String) (r : Restaurant) : Bool :=
  includesCI (renderAddress r.address) q

/-- The rating filter body: `restaurant.rating && restaurant.rating >= minRating`
(a stored rating of `0` is falsy and fails the filter). -/
def ratingFilter (minRating : ℚ) (r : Restaurant) : Bool :=
  match r.rating with
  | some v => v != 0 && decide (minRating ≤ v)
  | none => false

/-- The guest-capacity filter body: remaining capacity covers the request. -/
def capacityFilter (g : Int) (r : Restaurant) : Bool :=
  decide (g ≤ effMaxGuests r - effCurrGuests r)

/-! ## Search engine (`GET /api/restaurants`) -/

/-- The query parameters recognized by `GET /api/restaurants`; query values
arrive as strings, absent parameters are `none`. -/
structure Criteria where
  cuisine : Option String := none
  date : Option String := none
  time : Option String := none
  budget : Option String := none
  location : Option String := none
  rating : Option String := none
  numGuests : Option String := none
deriving DecidableEq, Repr

/-- Filter steps 4–7 of `GET /api/restaurants` (budget, location, rating,
numGuests), applied after the cuisine and availability filters. -/
def laterFilters (c : Criteria) (l : List Restaurant) : List Restaurant :=
  let d3 := if truthyS c.budget then
      l.filter (fun r => isOnBudget r (c.budget.getD "")) else l
  let d4 := if truthyS c.location then
      d3.filter (locationFilter (c.location.getD "")) else d3
  let d5 := if truthyS c.rating then
      match parseFloatStr (c.rating.getD "") with
      | some m => d4.filter (ratingFilter m)
      | none => d4
    else d4
  if truthyS c.numGuests then
    match parseIntStr (c.numGuests.getD "") with
    | some g => if 0 < g then d5.filter (capacityFilter g) else d5
    | none => d5
  else d5

/-- The filtering pipeline of `GET /api/restaurants`: cuisine, then the
paired date/time availability filter (with date validation aborting the
request on failure), then budget, location, rating and numGuests. -/
def searchRestaurants (today : Int) (data : List Restaurant) (c : Criteria) :
    Except DateError (List Restaurant) :=
  let d1 := if truthyS c.cuisine then
      data.filter (cuisineFilter (c.cuisine.getD "")) else data
  if truthyS c.date && truthyS c.time then
    match validateDate today (c.date.getD "") with
    | some e => .error e
    | none =>
      .ok (laterFilters c (d1.filter (fun r =>
        isRestaurantOpen r (c.date.getD "") (c.time.getD ""))))
  else .ok (laterFilters c d1)

/-! ## Reservation endpoint (`POST /api/reservations`) -/

/-- The JSON body of `POST /api/reservations`.  `restaurantId` and
`numGuests` may arrive as numbers or strings; `date` and `time` are
strings per the endpoint contract. -/
structure ReservationBody where
  restaurantId : Option JSVal := none
  date : Option String := none
  time : Option String := none
  numGuests : Option JSVal := none
deriving DecidableEq, Repr

/-- The distinct failure responses of `POST /api/reservations`, one per
early-return branch. -/
inductive RsvError where
  | missingFields
  | badDateFormat
  | invalidDate
  | pastDate
  | numGuestsNotPositive
  | invalidIdFormat
  | notFound
  | notOpen
  | capacityExceeded
deriving DecidableEq, Repr

/-- Lift a `validateDate` failure into the reservation error type. -/
def dateErrToRsv : DateError → RsvError
  | .badFormat => .badDateFormat
  | .invalidDate => .invalidDate
  | .pastDate => .pastDate

/-- The id comparison of the store lookup:
`(typeof r.id === 'string' ? parseInt(r.id) : r.id) === target`. -/
def matchesId (rid : JSId) (target : Int) : Bool :=
  match rid with
  | .num n => n == target
  | .str s =>
    match parseIntStr s with
    | some n => n == target
    | none => false

/-- `findIndex` together with the found element (the code indexes
`restaurantsData` with the result of `findIndex`). -/
def findWithIdx (p : Restaurant → Bool) : List Restaurant → Nat → Option (Nat × Restaurant)
  | [], _ => none
  | r :: rest, i => if p r then some (i, r) else findWithIdx p rest (i + 1)

/-- `POST /api/reservations`: the full check sequence and the store
mutation.  Returns the response outcome together with the store after the
request (modelling the in-place mutation of `restaurantsData`). -/
def reserve (today : Int) (store : List Restaurant) (b : ReservationBody) :
    Except RsvError Restaurant × List Restaurant :=
  if !(truthyV b.restaurantId && truthyS b.date && truthyS b.time &&
       truthyV b.numGuests) then
    (.error .missingFields, store)
  else
    let date := b.date.getD ""
    let time := b.time.getD ""
    match validateDate today date with
    | some e => (.error (dateErrToRsv e), store)
    | none =>
      match parseIntVal b.numGuests with
      | none => (.error .numGuestsNotPositive, store)
      | some guests =>
        if guests ≤ 0 then (.error .numGuestsNotPositive, store)
        else
          match parseIntVal b.restaurantId with
          | none => (.error .invalidIdFormat, store)
          | some ridNum =>
            match findWithIdx (fun r => matchesId r.id ridNum) store 0 with
            | none => (.error .notFound, store)
            | some (idx, r) =>
              if !isRestaurantOpen r date time then (.error .notOpen, store)
              else
                if effMaxGuests r - effCurrGuests r < guests then
                  (.error .capacityExceeded, store)
                else
                  let r2 := { r with currGuests := some (effCurrGuests r + guests) }
                  (.ok r2, store.set idx r2)

/-! ## Seed data and fixed evaluation date -/

/-- A seed restaurant for concrete evaluations (Chef Yam, `id: 1`). -/
def chefYam : Restaurant :=
  { id := .num 1
    name := "Chef Yam"
    cuisine := "Seafood"
    address := .plain "HaNamal St 12, Tel Aviv"
    rating := some (mkRat 24 5)
    price_range := some "$$$"
    maxGuests := some 60
    currGuests := some 0
    openingHours := some
      [("Monday", .openHours "12:00" "23:00"),
       ("Tuesday", .openHours "12:00" "23:00"),
       ("Wednesday", .openHours "12:00" "23:00"),
       ("Thursday", .openHours "12:00" "23:00"),
       ("Friday", .openHours "12:00" "23:00"),
       ("Saturday", .closedDay),
       ("Sunday", .closedDay)] }

/-- A fixed "current UTC date" for concrete evaluations: 2026-10-12, a
Monday. -/
def today0 : Int := daysFromCivil 2026 10 12

/-! ## Search pipeline as a single conjunctive filter -/

/-- The cuisine constraint as a guard: trivially true when absent. -/
def cuisineGuard (c : Criteria) (r : Restaurant) : Bool :=
  !truthyS c.cuisine || cuisineFilter (c.cuisine.getD "") r

/-- The paired date/time availability constraint as a guard. -/
def availGuard (c : Criteria) (r : Restaurant) : Bool :=
  !(truthyS c.date && truthyS c.time) ||
    isRestaurantOpen r (c.date.getD "") (c.time.getD "")

/-- The budget constraint as a guard. -/
def budgetGuard (c : Criteria) (r : Restaurant) : Bool :=
  !truthyS c.budget || isOnBudget r (c.budget.getD "")

/-- The location constraint as a guard. -/
def locationGuard (c : Criteria) (r : Restaurant) : Bool :=
  !truthyS c.location || locationFilter (c.location.getD "") r

/-- The rating constraint as a guard (trivially true when absent or
unparseable, mirroring the `isNaN` check). -/
def ratingGuard (c : Criteria) (r : Restaurant) : Bool :=
  !truthyS c.rating ||
    (match parseFloatStr (c.rating.getD "") with
     | some m => ratingFilter m r
     | none => true)

/-- The guest-count constraint as a guard (trivially true when absent,
unparseable, or non-positive). -/
def guestsGuard (c : Criteria) (r : Restaurant) : Bool :=
  !truthyS c.numGuests ||
    (match parseIntStr (c.numGuests.getD "") with
     | some g => if 0 < g then capacityFilter g r else true
     | none => true)

/-- The conjunction of all present criteria's predicates. -/
def conjPred (c : Criteria) (r : Restaurant) : Bool :=
  cuisineGuard c r && availGuard c r && budgetGuard c r && locationGuard c r &&
    ratingGuard c r && guestsGuard c r

/-! ## Spec-side definitions used to compare claims against the code -/

/-- The rating-filter predicate exactly as claim C7 words it: the rating is
present and at least the minimum.  Compare with `ratingFilter`, which also
requires the stored rating to be truthy (nonzero). -/
def specRatingKeep (minRating : ℚ) (r : Restaurant) : Bool :=
  match r.rating with
  | some v => decide (minRating ≤ v)
  | none => false

/-- A restaurant whose stored rating is `0` (a legal rating per the data
model, but falsy in JS). -/
def ratedZero : Restaurant := { id := .num 7, rating := some 0 }

/-- The capacity bound exactly as claim C1 words it: `maxGuests` defaults
to 50 only when the field is absent.  Compare with `effMaxGuests`, which
also defaults a stored `0` (JS falsiness of `0` under `||`). -/
def specMaxGuestsC1 (r : Restaurant) : Int := r.maxGuests.getD 50

/-- A restaurant whose stored `maxGuests` is `0`, reachable through the
update endpoint (which spreads the request body over the record without
validating `maxGuests`). -/
def zeroCapRestaurant : Restaurant :=
  { id := .num 1, maxGuests := some 0,
    openingHours := some [("Monday", .openHours "12:00" "23:00")] }

/-- The reservation check sequence in the ORDER claim C3 states it:
step 1 requires all four inputs present AND well-typed (with `numGuests`
coercing to a positive integer and `restaurantId` parsing as an integer)
before any date validation.  This formalizes the claim's wording for
comparison with `reserve`, which validates the date before coercing
`numGuests` and `restaurantId`. -/
def reserveSpecOrder (today : Int) (store : List Restaurant)
    (b : ReservationBody) : Except RsvError Restaurant × List Restaurant :=
  if !(truthyV b.restaurantId && truthyS b.date && truthyS b.time &&
       truthyV b.numGuests) then
    (.error .missingFields, store)
  else
    match parseIntVal b.numGuests with
    | none => (.error .numGuestsNotPositive, store)
    | some guests =>
      if guests ≤ 0 then (.error .numGuestsNotPositive, store)
      else
        match parseIntVal b.restaurantId with
        | none => (.error .invalidIdFormat, store)
        | some ridNum =>
          match validateDate today (b.date.getD "") with
          | some e => (.error (dateErrToRsv e), store)
          | none =>
            match findWithIdx (fun r0 => matchesId r0.id ridNum) store 0 with
            | none => (.error .notFound, store)
            | some (idx, r) =>
              if !isRestaurantOpen r (b.date.getD "") (b.time.getD "") then
                (.error .notOpen, store)
              else if effMaxGuests r - effCurrGuests r < guests then
                (.error .capacityExceeded, store)
              else
                (.ok { r with currGuests := some (effCurrGuests r + guests) },
                 store.set idx
                   { r with currGuests := some (effCurrGuests r + guests) })

/-- A request with a past date and a non-numeric guest count: the two
orders of checking disagree on which error is reported. -/
def outOfOrderBody : ReservationBody :=
  { restaurantId := some (.num 1), date := some "1999-01-01",
    time := some "13:00", numGuests := some (.str "abc") }

end DiningMatch

namespace DiningMatch

/-! ## Claim C2: schedule matcher -/

/-- Claim C2: `isRestaurantOpen` returns `false` when the weekday's
opening-hours entry is absent or marked closed; otherwise, with the
entry's `open`/`close` strings compared lexicographically, it is open iff
`open <= time < close` in the same-day case (`close >= open`) and iff
`time >= open` or `time < close` in the overnight case (`close < open`) —
open boundary inclusive, close boundary exclusive in both cases. -/
theorem C2_schedule_matcher (r : Restaurant) (date time : String) :
    (r.openingHours = none → isRestaurantOpen r date time = false) ∧
    (∀ oh, r.openingHours = some oh →
      (getDayOfWeek date = none → isRestaurantOpen r date time = false) ∧
      (∀ day, getDayOfWeek date = some day →
        (oh.lookup day = none → isRestaurantOpen r date time = false) ∧
        (oh.lookup day = some .closedDay → isRestaurantOpen r date time = false) ∧
        (∀ ot ct, oh.lookup day = some (.openHours ot ct) →
          (isRestaurantOpen r date time = true ↔
            (if jsStrLt ct ot = true
             then jsStrLt time ot = false ∨ jsStrLt time ct = true
             else jsStrLt time ot = false ∧ jsStrLt time ct = true))))) := by
  refine ⟨fun h => by simp [isRestaurantOpen, h], fun oh hoh => ⟨?_, fun day hday => ⟨?_, ?_, ?_⟩⟩⟩
  · intro h; simp [isRestaurantOpen, hoh, h]
  · intro h; simp [isRestaurantOpen, hoh, hday, h]
  · intro h; simp [isRestaurantOpen, hoh, hday, h]
  · intro ot ct h
    simp only [isRestaurantOpen, hoh, hday, h]
    by_cases hc : jsStrLt ct ot = true
    · simp [hc]
    · simp [hc]

/-- Concrete instance of C2: Chef Yam is open Monday 2026-10-12 at 13:00. -/
theorem C2_schedule_matcher_witness :
    isRestaurantOpen chefYam "2026-10-12" "13:00" = true :=
  ((((C2_schedule_matcher chefYam "2026-10-12" "13:00").2 _ rfl).2
    "Monday" (by decide)).2.2 "12:00" "23:00" (by decide)).mpr (by decide)

/-! ## Claim C9: `numGuests = 0` fails the presence check -/

/-- Claim C9: a reservation body whose `numGuests` is the number `0` is
falsy, so it is rejected by the initial required-fields check (the
`missingFields` response), never reaching the positivity check, and the
store is unchanged. -/
theorem C9_zero_guests_missing_fields (today : Int) (store : List Restaurant)
    (b : ReservationBody) (h : b.numGuests = some (.num 0)) :
    reserve today store b = (.error .missingFields, store) := by
  have hf : truthyV b.numGuests = false := by rw [h]; rfl
  unfold reserve
  simp [hf]

/-- Concrete instance of C9: zero guests on an otherwise valid request. -/
theorem C9_zero_guests_missing_fields_witness :
    reserve today0 [chefYam]
      { restaurantId := some (.num 1), date := some "2026-10-12",
        time := some "13:00", numGuests := some (.num 0) } =
      (.error .missingFields, [chefYam]) :=
  C9_zero_guests_missing_fields today0 [chefYam] _ rfl

/-! ## Claim C8: budget predicate -/

/-- Claim C8: the budget predicate holds iff the budget string equals the
restaurant's price tier, where the tier is normalized from the two field
spellings by `price_range || priceRange`; within a search, a present
budget criterion filters the collection by exactly this predicate. -/
theorem C8_budget_exact_match (r : Restaurant) (bq : String) :
    (isOnBudget r bq = true ↔ jsOrS r.price_range r.priceRange = some bq) ∧
    (∀ (today : Int) (data : List Restaurant), bq ≠ "" →
      searchRestaurants today data { budget := some bq } =
        .ok (data.filter (fun r2 => isOnBudget r2 bq))) := by
  constructor
  · unfold isOnBudget
    cases hx : jsOrS r.price_range r.priceRange <;> simp [hx]
  · intro today data hbq
    simp [searchRestaurants, laterFilters, truthyS, hbq]

/-- Concrete instance of C8: filtering the seed store by `$$$`. -/
theorem C8_budget_exact_match_witness :
    searchRestaurants today0 [chefYam] { budget := some "$$$" } =
      .ok ([chefYam].filter (fun r2 => isOnBudget r2 "$$$")) :=
  (C8_budget_exact_match chefYam "$$$").2 today0 [chefYam] (by decide)

/-! ## Claim C4: date validation aborts the search -/

/-- Claim C4: when both date and time criteria are supplied and the date
fails validation, the whole search reports the validation error; and a
date is valid iff it matches the `YYYY-MM-DD` format, is a real calendar
date, and is not strictly before the current UTC date — so a same-day
date with no format error passes. -/
theorem C4_search_date_validation (today : Int) (data : List Restaurant)
    (c : Criteria) :
    (∀ e, truthyS c.date = true → truthyS c.time = true →
      validateDate today (c.date.getD "") = some e →
      searchRestaurants today data c = .error e) ∧
    (∀ s, validateDate today s = none ↔
      ∃ y m d, parseYMD s = some (y, m, d) ∧ validYMD y m d = true ∧
        today ≤ daysFromCivil y m d) := by
  constructor
  · intro e hd ht hv
    simp [searchRestaurants, hd, ht, hv]
  · intro s
    unfold validateDate
    cases hp : parseYMD s with
    | none => simp
    | some t =>
      obtain ⟨y, m, d⟩ := t
      by_cases hval : validYMD y m d = true
      · by_cases hpast : daysFromCivil y m d < today
        · simp [hval, hpast]
        · simp [hval, hpast]
          exact ⟨y, m, d, ⟨rfl, rfl, rfl⟩, hval, by omega⟩
      · simp [hval]

/-- Concrete instance of C4: the invalid month `"2024-13-01"` aborts a
search that supplies both date and time. -/
theorem C4_search_date_validation_witness :
    searchRestaurants today0 [chefYam]
      { date := some "2024-13-01", time := some "20:00" } =
      .error .invalidDate :=
  (C4_search_date_validation today0 [chefYam] _).1 .invalidDate
    (by decide) (by decide) (by decide)

end DiningMatch

namespace DiningMatch

theorem cuisineStage (c : Criteria) (l : List Restaurant) :
    (if truthyS c.cuisine then l.filter (cuisineFilter (c.cuisine.getD "")) else l) =
      l.filter (fun r => cuisineGuard c r) := by
  cases hc : truthyS c.cuisine <;> simp [cuisineGuard, hc]

theorem budgetStage (c : Criteria) (l : List Restaurant) :
    (if truthyS c.budget then l.filter (fun r => isOnBudget r (c.budget.getD "")) else l) =
      l.filter (fun r => budgetGuard c r) := by
  cases hb : truthyS c.budget <;> simp [budgetGuard, hb]

theorem locationStage (c : Criteria) (l : List Restaurant) :
    (if truthyS c.location then l.filter (locationFilter (c.location.getD "")) else l) =
      l.filter (fun r => locationGuard c r) := by
  cases hl : truthyS c.location <;> simp [locationGuard, hl]

theorem ratingStage (c : Criteria) (l : List Restaurant) :
    (if truthyS c.rating then
        match parseFloatStr (c.rating.getD "") with
        | some m => l.filter (ratingFilter m)
        | none => l
      else l) = l.filter (fun r => ratingGuard c r) := by
  cases hr : truthyS c.rating
  · simp [ratingGuard, hr]
  · cases hpf : parseFloatStr (c.rating.getD "") <;> simp [ratingGuard, hr, hpf]

theorem guestsStage (c : Criteria) (l : List Restaurant) :
    (if truthyS c.numGuests then
        match parseIntStr (c.numGuests.getD "") with
        | some g => if 0 < g then l.filter (capacityFilter g) else l
        | none => l
      else l) = l.filter (fun r => guestsGuard c r) := by
  cases hn : truthyS c.numGuests
  · simp [guestsGuard, hn]
  · cases hpi : parseIntStr (c.numGuests.getD "")
    · simp [guestsGuard, hn, hpi]
    · rename_i g
      by_cases hg : 0 < g <;> simp [guestsGuard, hn, hpi, hg]

theorem laterFilters_eq (c : Criteria) (l : List Restaurant) :
    laterFilters c l = l.filter (fun r =>
      budgetGuard c r && locationGuard c r && ratingGuard c r && guestsGuard c r) := by
  unfold laterFilters
  simp only [budgetStage, locationStage, ratingStage, guestsStage]
  simp only [List.filter_filter]
  refine List.filter_congr ?_
  intro r _
  cases hb : budgetGuard c r <;> cases hl : locationGuard c r <;>
    cases hr : ratingGuard c r <;> cases hg : guestsGuard c r <;>
    simp [hb, hl, hr, hg]

/-- Every successful search result is the stable conjunctive filter of the
input collection. -/
theorem searchRestaurants_ok_eq (today : Int) (data : List Restaurant)
    (c : Criteria) (res : List Restaurant)
    (h : searchRestaurants today data c = .ok res) :
    res = data.filter (conjPred c) := by
  unfold searchRestaurants at h
  rw [cuisineStage] at h
  cases hdt : (truthyS c.date && truthyS c.time)
  · rw [hdt] at h
    simp only [Bool.false_eq_true, if_false, Except.ok.injEq] at h
    subst h
    rw [laterFilters_eq, List.filter_filter]
    refine List.filter_congr ?_
    intro r _
    cases hcui : cuisineGuard c r <;> cases hb : budgetGuard c r <;>
      cases hl : locationGuard c r <;> cases hr : ratingGuard c r <;>
      cases hg : guestsGuard c r <;>
      simp [conjPred, availGuard, hdt, hcui, hb, hl, hr, hg]
  · rw [hdt] at h
    simp only [if_true] at h
    cases hv : validateDate today (c.date.getD "") with
    | some e => rw [hv] at h; cases h
    | none =>
      rw [hv] at h
      simp only [Except.ok.injEq] at h
      subst h
      rw [laterFilters_eq, List.filter_filter, List.filter_filter]
      refine List.filter_congr ?_
      intro r _
      cases hcui : cuisineGuard c r <;> cases hb : budgetGuard c r <;>
        cases hl : locationGuard c r <;> cases hr : ratingGuard c r <;>
        cases hg : guestsGuard c r <;>
        cases ho : isRestaurantOpen r (c.date.getD "") (c.time.getD "") <;>
        simp [conjPred, availGuard, hdt, hcui, hb, hl, hr, hg, ho]

end DiningMatch

namespace DiningMatch

/-! ## Claim C5: conjunctive, order-preserving search -/

/-- Claim C5: every successful search result is the stable filter of the
input collection by the conjunction of the predicates of the present
criteria (absent criteria impose no constraint), and supplying no
criteria returns all records unchanged in order. -/
theorem C5_search_conjunctive_stable (today : Int) (data : List Restaurant)
    (c : Criteria) :
    (∀ res, searchRestaurants today data c = .ok res →
      res = data.filter (conjPred c)) ∧
    searchRestaurants today data {} = .ok data := by
  constructor
  · intro res h
    exact searchRestaurants_ok_eq today data c res h
  · simp [searchRestaurants, laterFilters, truthyS]

/-- Concrete instance of C5: a cuisine-only search over the seed store. -/
theorem C5_search_conjunctive_stable_witness :
    ([chefYam] : List Restaurant) =
      [chefYam].filter (conjPred { cuisine := some "Sea" }) :=
  (C5_search_conjunctive_stable today0 [chefYam] { cuisine := some "Sea" }).1
    [chefYam] (by decide)

/-! ## Claim C6: unpaired date/time is ignored -/

/-- `laterFilters` only reads the budget, location, rating and numGuests
criteria. -/
theorem laterFilters_congr (c c' : Criteria) (hB : c.budget = c'.budget)
    (hL : c.location = c'.location) (hR : c.rating = c'.rating)
    (hN : c.numGuests = c'.numGuests) (l : List Restaurant) :
    laterFilters c l = laterFilters c' l := by
  unfold laterFilters
  rw [hB, hL, hR, hN]

/-- Claim C6: when exactly one of date and time is supplied, the pair is
ignored — the search behaves as if neither were supplied (so no date
validation error is raised and the other criteria still apply) and always
succeeds. -/
theorem C6_unpaired_date_time_ignored (today : Int) (data : List Restaurant)
    (c : Criteria) (h : truthyS c.date = false ∨ truthyS c.time = false) :
    searchRestaurants today data c =
      searchRestaurants today data { c with date := none, time := none } ∧
    ∃ res, searchRestaurants today data c = .ok res := by
  have hdt : (truthyS c.date && truthyS c.time) = false := by
    rcases h with h | h <;> simp [h]
  have heq : searchRestaurants today data c =
      searchRestaurants today data { c with date := none, time := none } := by
    unfold searchRestaurants
    rw [hdt]
    simp only [truthyS, Bool.and_false, Bool.false_eq_true, if_false]
    exact congrArg Except.ok (laterFilters_congr _ _ rfl rfl rfl rfl _)
  refine ⟨heq, ?_⟩
  rw [heq]
  unfold searchRestaurants
  simp [truthyS]

/-- Concrete instance of C6: an invalid date with no time raises no error
and the search still succeeds. -/
theorem C6_unpaired_date_time_ignored_witness :
    searchRestaurants today0 [chefYam] { date := some "2024-13-01" } =
      searchRestaurants today0 [chefYam]
        { ({ date := some "2024-13-01" } : Criteria) with
            date := none, time := none } ∧
    ∃ res, searchRestaurants today0 [chefYam] { date := some "2024-13-01" } =
      .ok res :=
  C6_unpaired_date_time_ignored today0 [chefYam] _ (Or.inr rfl)

end DiningMatch

namespace DiningMatch

/-! ## Claim C10: unparseable numeric criteria are silently skipped -/

/-- A rating criterion that does not parse leaves the later filters as if
the criterion were absent. -/
theorem laterFilters_rating_skip (c : Criteria) (q : String)
    (l : List Restaurant) (hq : c.rating = some q)
    (hp : parseFloatStr q = none) :
    laterFilters c l = laterFilters { c with rating := none } l := by
  unfold laterFilters
  rw [hq]
  simp [hp, truthyS]

/-- A numGuests criterion that does not parse as a positive integer leaves
the later filters as if the criterion were absent. -/
theorem laterFilters_guests_skip (c : Criteria) (q : String)
    (l : List Restaurant) (hq : c.numGuests = some q)
    (hp : parseIntStr q = none ∨ ∃ g, parseIntStr q = some g ∧ g ≤ 0) :
    laterFilters c l = laterFilters { c with numGuests := none } l := by
  unfold laterFilters
  rw [hq]
  rcases hp with hp | ⟨g, hp, hg⟩
  · simp [hp, truthyS]
  · have hng : ¬ (0 < g) := by omega
    simp [hp, hng, truthyS]

/-- Two criteria agreeing on cuisine, date and time and with pointwise
equal later filters give identical searches. -/
theorem search_congr_later (today : Int) (data : List Restaurant)
    (c c' : Criteria) (hcu : c.cuisine = c'.cuisine) (hd : c.date = c'.date)
    (ht : c.time = c'.time)
    (hlf : ∀ l, laterFilters c l = laterFilters c' l) :
    searchRestaurants today data c = searchRestaurants today data c' := by
  unfold searchRestaurants
  rw [hcu, hd, ht]
  simp only [hlf]

/-- Claim C10: a rating criterion that does not parse as a number, or a
numGuests criterion that does not parse as a positive integer, is
silently skipped — the search result is exactly that of the same search
without the criterion, with no error — in contrast with date validation,
which aborts the whole search. -/
theorem C10_unparseable_numeric_skipped (today : Int)
    (data : List Restaurant) (c : Criteria) :
    (∀ q, c.rating = some q → parseFloatStr q = none →
      searchRestaurants today data c =
        searchRestaurants today data { c with rating := none }) ∧
    (∀ q, c.numGuests = some q →
      (parseIntStr q = none ∨ ∃ g, parseIntStr q = some g ∧ g ≤ 0) →
      searchRestaurants today data c =
        searchRestaurants today data { c with numGuests := none }) ∧
    (∀ e, truthyS c.date = true → truthyS c.time = true →
      validateDate today (c.date.getD "") = some e →
      searchRestaurants today data c = .error e) := by
  refine ⟨?_, ?_, ?_⟩
  · intro q hq hp
    exact search_congr_later today data _ _ rfl rfl rfl
      (fun l => laterFilters_rating_skip c q l hq hp)
  · intro q hq hp
    exact search_congr_later today data _ _ rfl rfl rfl
      (fun l => laterFilters_guests_skip c q l hq hp)
  · intro e hd ht hv
    simp [searchRestaurants, hd, ht, hv]

/-- Concrete instances of C10: an unparseable rating and a zero numGuests
are both skipped over the seed store. -/
theorem C10_unparseable_numeric_skipped_witness :
    (searchRestaurants today0 [chefYam] { rating := some "abc" } =
      searchRestaurants today0 [chefYam]
        { ({ rating := some "abc" } : Criteria) with rating := none }) ∧
    (searchRestaurants today0 [chefYam] { numGuests := some "0" } =
      searchRestaurants today0 [chefYam]
        { ({ numGuests := some "0" } : Criteria) with numGuests := none }) :=
  ⟨(C10_unparseable_numeric_skipped today0 [chefYam] _).1 "abc" rfl (by decide),
   (C10_unparseable_numeric_skipped today0 [chefYam] _).2.1 "0" rfl
     (Or.inr ⟨0, by decide, by decide⟩)⟩

/-! ## Claim C7: rating filter (corrected) -/

/-- Claim C7 counterexample: with minimum rating `0`, a restaurant whose
rating is present and `>=` the minimum (namely `0`) is nevertheless
dropped by the search, because the code first tests the rating for JS
truthiness. -/
theorem C7_counterexample :
    parseFloatStr "0" = some 0 ∧
    specRatingKeep 0 ratedZero = true ∧
    searchRestaurants today0 [ratedZero] { rating := some "0" } = .ok [] := by
  decide

/-- Claim C7 (amended): the rating filter keeps a restaurant iff its rating
is present, nonzero (JS truthiness), and at least the minimum; a present
rating criterion that parses applies exactly this filter. -/
theorem C7_amended_rating_filter (m : ℚ) (r : Restaurant) :
    (ratingFilter m r = true ↔ ∃ v, r.rating = some v ∧ v ≠ 0 ∧ m ≤ v) ∧
    (∀ (today : Int) (data : List Restaurant) (q : String) (m2 : ℚ),
      q ≠ "" → parseFloatStr q = some m2 →
      searchRestaurants today data { rating := some q } =
        .ok (data.filter (ratingFilter m2))) := by
  constructor
  · unfold ratingFilter
    cases hr : r.rating <;> simp [hr]
  · intro today data q m2 hq hp
    simp [searchRestaurants, laterFilters, truthyS, hq, hp]

/-- Concrete instance of the amended C7: Chef Yam (rating 4.8) passes the
minimum-4 filter. -/
theorem C7_amended_rating_filter_witness :
    ratingFilter 4 chefYam = true :=
  (C7_amended_rating_filter 4 chefYam).1.mpr
    ⟨mkRat 24 5, rfl, by decide, by decide⟩

end DiningMatch

namespace DiningMatch

/-! ## Reservation endpoint: case analysis -/

/-- Every reservation request either fails with some error and leaves the
store unchanged, or passes every check and increments the found
restaurant's guest count in place. -/
theorem reserve_spec (today : Int) (store : List Restaurant)
    (b : ReservationBody) :
    (∃ e, reserve today store b = (.error e, store)) ∨
    (∃ idx r guests ridNum,
      parseIntVal b.numGuests = some guests ∧ 0 < guests ∧
      parseIntVal b.restaurantId = some ridNum ∧
      findWithIdx (fun r0 => matchesId r0.id ridNum) store 0 = some (idx, r) ∧
      isRestaurantOpen r (b.date.getD "") (b.time.getD "") = true ∧
      guests ≤ effMaxGuests r - effCurrGuests r ∧
      reserve today store b =
        (.ok { r with currGuests := some (effCurrGuests r + guests) },
         store.set idx { r with currGuests := some (effCurrGuests r + guests) })) := by
  cases hpres : (truthyV b.restaurantId && truthyS b.date && truthyS b.time &&
      truthyV b.numGuests) with
  | false =>
    left
    exact ⟨.missingFields, by unfold reserve; simp [hpres]⟩
  | true =>
    cases hvd : validateDate today (b.date.getD "") with
    | some e =>
      left; exact ⟨dateErrToRsv e, by unfold reserve; simp [hpres, hvd]⟩
    | none =>
      cases hng : parseIntVal b.numGuests with
      | none =>
        left
        exact ⟨.numGuestsNotPositive, by unfold reserve; simp [hpres, hvd, hng]⟩
      | some guests =>
        by_cases hg : guests ≤ 0
        · left
          exact ⟨.numGuestsNotPositive, by unfold reserve; simp [hpres, hvd, hng, hg]⟩
        · cases hrid : parseIntVal b.restaurantId with
          | none =>
            left
            exact ⟨.invalidIdFormat, by unfold reserve; simp [hpres, hvd, hng, hg, hrid]⟩
          | some ridNum =>
            cases hfd : findWithIdx (fun r0 => matchesId r0.id ridNum) store 0 with
            | none =>
              left
              exact ⟨.notFound, by unfold reserve; simp [hpres, hvd, hng, hg, hrid, hfd]⟩
            | some p =>
              obtain ⟨idx, r⟩ := p
              cases hop : isRestaurantOpen r (b.date.getD "") (b.time.getD "") with
              | false =>
                left
                exact ⟨.notOpen, by unfold reserve; simp [hpres, hvd, hng, hg, hrid, hfd, hop]⟩
              | true =>
                by_cases hcap : effMaxGuests r - effCurrGuests r < guests
                · left
                  exact ⟨.capacityExceeded,
                    by unfold reserve; simp [hpres, hvd, hng, hg, hrid, hfd, hop, hcap]⟩
                · right
                  exact ⟨idx, r, guests, ridNum, rfl, by omega, rfl, hfd, hop, by omega,
                    by unfold reserve; simp [hpres, hvd, hng, hg, hrid, hfd, hop, hcap]⟩

end DiningMatch

namespace DiningMatch

/-! ## Claim C1: capacity invariant (corrected) -/

/-- Claim C1 counterexample: with `maxGuests` stored as `0`, the code
treats the capacity as 50 (JS `||` also defaults on `0`), accepts a
10-guest reservation, and afterwards `currGuests = 10` exceeds the
claim's bound `maxGuests`-defaulting-only-when-absent, which is `0`. -/
theorem C1_counterexample :
    (reserve today0 [zeroCapRestaurant]
        { restaurantId := some (.num 1), date := some "2026-10-12",
          time := some "13:00", numGuests := some (.num 10) }).1 =
      .ok { zeroCapRestaurant with currGuests := some 10 } ∧
    ({ zeroCapRestaurant with currGuests := some 10 }).currGuests = some 10 ∧
    ¬ ((10 : Int) ≤
        specMaxGuestsC1 { zeroCapRestaurant with currGuests := some 10 }) := by
  decide

/-- Claim C1 (amended): after every accepted reservation the updated
restaurant's stored `currGuests` is at most its effective `maxGuests`,
where the default 50 applies when the field is absent or `0` (JS
falsiness); any failed reservation leaves the store untouched; and a
request reaching the capacity check whose guest count exceeds the
remaining capacity is rejected with the capacity error, with the store
unchanged — never clamped. -/
theorem C1_amended_capacity_invariant (today : Int) (store : List Restaurant)
    (b : ReservationBody) :
    (∀ r2, (reserve today store b).1 = .ok r2 →
      ∃ v, r2.currGuests = some v ∧ v ≤ effMaxGuests r2) ∧
    (∀ e, (reserve today store b).1 = .error e →
      (reserve today store b).2 = store) ∧
    (∀ idx r guests ridNum,
      truthyV b.restaurantId = true → truthyS b.date = true →
      truthyS b.time = true → truthyV b.numGuests = true →
      validateDate today (b.date.getD "") = none →
      parseIntVal b.numGuests = some guests → 0 < guests →
      parseIntVal b.restaurantId = some ridNum →
      findWithIdx (fun r0 => matchesId r0.id ridNum) store 0 = some (idx, r) →
      isRestaurantOpen r (b.date.getD "") (b.time.getD "") = true →
      effMaxGuests r - effCurrGuests r < guests →
      reserve today store b = (.error .capacityExceeded, store)) := by
  refine ⟨?_, ?_, ?_⟩
  · intro r2 h
    rcases reserve_spec today store b with ⟨e, heq⟩ |
      ⟨idx, r, guests, ridNum, hng, hpos, hrid, hfd, hop, hcap, heq⟩
    · rw [heq] at h; cases h
    · rw [heq] at h
      simp only [Except.ok.injEq] at h
      subst h
      refine ⟨effCurrGuests r + guests, rfl, ?_⟩
      have hmax : effMaxGuests { r with currGuests := some (effCurrGuests r + guests) } =
          effMaxGuests r := rfl
      rw [hmax]
      omega
  · intro e h
    rcases reserve_spec today store b with ⟨e2, heq⟩ |
      ⟨idx, r, guests, ridNum, hng, hpos, hrid, hfd, hop, hcap, heq⟩
    · rw [heq]
    · rw [heq] at h; cases h
  · intro idx r guests ridNum h1 h2 h3 h4 hvd hng hpos hrid hfd hop hcap
    have hpres : (truthyV b.restaurantId && truthyS b.date && truthyS b.time &&
        truthyV b.numGuests) = true := by simp [h1, h2, h3, h4]
    have hgle : ¬ (guests ≤ 0) := by omega
    unfold reserve
    simp [hpres, hvd, hng, hgle, hrid, hfd, hop, hcap]

/-- Concrete instances of C1 (amended): the seed scenario — after a
successful 10-guest reservation the invariant holds, and a 55-guest
request against remaining capacity 50 is rejected with the store
unchanged. -/
theorem C1_amended_capacity_invariant_witness :
    (∃ v, ({ chefYam with currGuests := some 10 } : Restaurant).currGuests =
        some v ∧ v ≤ effMaxGuests { chefYam with currGuests := some 10 }) ∧
    reserve today0 [{ chefYam with currGuests := some 10 }]
      { restaurantId := some (.num 1), date := some "2026-10-12",
        time := some "13:00", numGuests := some (.num 55) } =
      (.error .capacityExceeded, [{ chefYam with currGuests := some 10 }]) :=
  ⟨(C1_amended_capacity_invariant today0 [chefYam]
      { restaurantId := some (.num 1), date := some "2026-10-12",
        time := some "13:00", numGuests := some (.num 10) }).1
      { chefYam with currGuests := some 10 } (by decide),
   (C1_amended_capacity_invariant today0 [{ chefYam with currGuests := some 10 }]
      { restaurantId := some (.num 1), date := some "2026-10-12",
        time := some "13:00", numGuests := some (.num 55) }).2.2
      0 { chefYam with currGuests := some 10 } 55 1
      (by decide) (by decide) (by decide) (by decide) (by decide) (by decide)
      (by decide) (by decide) (by decide) (by decide) (by decide)⟩

end DiningMatch

namespace DiningMatch

/-! ## Claim C3: reservation check order (corrected) -/

/-- Claim C3 counterexample: on a request whose `numGuests` does not
coerce to a positive integer but whose date is well-formed and in the
past, the code reports the past-date error — so it validates the date
before the step-1 well-typedness the claim puts first, and differs
observably from the claimed order. -/
theorem C3_counterexample :
    reserve today0 [chefYam] outOfOrderBody = (.error .pastDate, [chefYam]) ∧
    reserveSpecOrder today0 [chefYam] outOfOrderBody =
      (.error .numGuestsNotPositive, [chefYam]) ∧
    reserve today0 [chefYam] outOfOrderBody ≠
      reserveSpecOrder today0 [chefYam] outOfOrderBody := by
  decide

/-- Claim C3 (amended): the checks run in the order presence (JS
truthiness of all four fields), date validation, `numGuests` positive
coercion, `restaurantId` coercion, existence, open-hours, capacity —
short-circuiting at the first failure with the corresponding error and an
untouched store; on success the stored record's `currGuests` is
incremented by the guest count and the updated entity is returned. -/
theorem C3_amended_check_order (today : Int) (store : List Restaurant)
    (b : ReservationBody) :
    ((truthyV b.restaurantId && truthyS b.date && truthyS b.time &&
        truthyV b.numGuests) = false →
      reserve today store b = (.error .missingFields, store)) ∧
    ((truthyV b.restaurantId && truthyS b.date && truthyS b.time &&
        truthyV b.numGuests) = true →
      (∀ e, validateDate today (b.date.getD "") = some e →
        reserve today store b = (.error (dateErrToRsv e), store)) ∧
      (validateDate today (b.date.getD "") = none →
        ((parseIntVal b.numGuests = none ∨
            (∃ g, parseIntVal b.numGuests = some g ∧ g ≤ 0)) →
          reserve today store b = (.error .numGuestsNotPositive, store)) ∧
        (∀ guests, parseIntVal b.numGuests = some guests → 0 < guests →
          (parseIntVal b.restaurantId = none →
            reserve today store b = (.error .invalidIdFormat, store)) ∧
          (∀ ridNum, parseIntVal b.restaurantId = some ridNum →
            (findWithIdx (fun r0 => matchesId r0.id ridNum) store 0 = none →
              reserve today store b = (.error .notFound, store)) ∧
            (∀ idx r,
              findWithIdx (fun r0 => matchesId r0.id ridNum) store 0 =
                some (idx, r) →
              (isRestaurantOpen r (b.date.getD "") (b.time.getD "") = false →
                reserve today store b = (.error .notOpen, store)) ∧
              (isRestaurantOpen r (b.date.getD "") (b.time.getD "") = true →
                (effMaxGuests r - effCurrGuests r < guests →
                  reserve today store b = (.error .capacityExceeded, store)) ∧
                (guests ≤ effMaxGuests r - effCurrGuests r →
                  reserve today store b =
                    (.ok { r with currGuests := some (effCurrGuests r + guests) },
                     store.set idx
                       { r with
                          currGuests := some (effCurrGuests r + guests) })))))))) := by
  refine ⟨?_, ?_⟩
  · intro hpres; unfold reserve; simp [hpres]
  · intro hpres
    refine ⟨?_, ?_⟩
    · intro e hvd; unfold reserve; simp [hpres, hvd]
    · intro hvd
      refine ⟨?_, ?_⟩
      · intro hng
        rcases hng with hng | ⟨g, hng, hle⟩
        · unfold reserve; simp [hpres, hvd, hng]
        · unfold reserve; simp [hpres, hvd, hng, hle]
      · intro guests hng hpos
        have hgle : ¬ (guests ≤ 0) := by omega
        refine ⟨?_, ?_⟩
        · intro hrid; unfold reserve; simp [hpres, hvd, hng, hgle, hrid]
        · intro ridNum hrid
          refine ⟨?_, ?_⟩
          · intro hfd; unfold reserve; simp [hpres, hvd, hng, hgle, hrid, hfd]
          · intro idx r hfd
            refine ⟨?_, ?_⟩
            · intro hop; unfold reserve; simp [hpres, hvd, hng, hgle, hrid, hfd, hop]
            · intro hop
              refine ⟨?_, ?_⟩
              · intro hcap
                unfold reserve; simp [hpres, hvd, hng, hgle, hrid, hfd, hop, hcap]
              · intro hcap
                have hncap : ¬ (effMaxGuests r - effCurrGuests r < guests) := by
                  omega
                unfold reserve
                simp [hpres, hvd, hng, hgle, hrid, hfd, hop, hncap]

/-- Concrete instance of the amended C3: the past-date error is reported
even though `numGuests` is non-numeric. -/
theorem C3_amended_check_order_witness :
    reserve today0 [chefYam] outOfOrderBody = (.error .pastDate, [chefYam]) :=
  ((C3_amended_check_order today0 [chefYam] outOfOrderBody).2 (by decide)).1
    .pastDate (by decide)

end DiningMatch
